import Mathlib

/-!
Verification of the Wikipedia MCP server core (src/server.py) against its
natural-language specification.

The embedding models decoded JSON payloads as an inductive `Json` tree and
Python runtime failures as `PyErr`; partial Python operations (subscripting,
attribute access, iteration) become `Except PyErr` computations.  The Gateway
Client (`make_wikipedia_request`), whose body is a network call, is abstracted
as a function argument of type `Fetch` returning `Option Json` (`none` is the
Absent signal produced by its blanket exception handler).  Each tool operation
is translated statement by statement from the source.
-/

/-- Decoded JSON payload tree, as produced by response.json() in server.py. -/
inductive Json where
  | null
  | bool (b : Bool)
  | num (n : Int)
  | str (s : String)
  | arr (elems : List Json)
  | obj (fields : List (String × Json))

/-- Python runtime exceptions that the tool-operation bodies can raise. -/
inductive PyErr where
  | typeError
  | keyError (k : String)
  | attributeError (n : String)
  | stopIteration
deriving DecidableEq

/-- Whether one character list begins with another (helper for substring ops). -/
def listStartsWith : List Char → List Char → Bool
  | [], _ => true
  | _ :: _, [] => false
  | p :: ps, c :: cs => p == c && listStartsWith ps cs

/-- Whether a character list occurs somewhere inside another. -/
def listContainsSub (needle : List Char) : List Char → Bool
  | [] => needle.isEmpty
  | c :: cs => listStartsWith needle (c :: cs) || listContainsSub needle cs

/-- Substring test on strings, as Python `needle in hay`. -/
def strContainsB (hay needle : String) : Bool :=
  listContainsSub needle.data hay.data

/-- Fueled worker for left-to-right non-overlapping substring replacement.
The fuel is the length of the remaining input, every step consumes at least
one character, and `old` is nonempty at every call site. -/
def replaceAux (old new : List Char) : Nat → List Char → List Char
  | _, [] => []
  | 0, s => s
  | Nat.succ fuel, c :: cs =>
    if listStartsWith old (c :: cs) then
      new ++ replaceAux old new fuel (List.drop (old.length - 1) cs)
    else
      c :: replaceAux old new fuel cs

/-- Python `s.replace(old, new)`: replaces every non-overlapping occurrence of
`old` left to right; an empty `old` interleaves `new` between all characters. -/
def pyReplace (s old new : String) : String :=
  if old.data.isEmpty then
    String.mk (new.data ++ s.data.foldr (fun c acc => c :: (new.data ++ acc)) [])
  else
    String.mk (replaceAux old.data new.data s.data.length s.data)

/-- Python truthiness of a decoded JSON value. -/
def truthy : Json → Bool
  | .null => false
  | .bool b => b
  | .num n => n != 0
  | .str s => !s.isEmpty
  | .arr xs => !xs.isEmpty
  | .obj kvs => !kvs.isEmpty

/-- First binding of a key in a field list (Python dict keys are unique, so
this is dict lookup). -/
def lookupField : List (String × Json) → String → Option Json
  | [], _ => none
  | (k, v) :: rest, key => if k = key then some v else lookupField rest key

/-- Python membership test `key in x` for a string key. -/
def pyIn (key : String) : Json → Except PyErr Bool
  | .obj kvs => .ok (lookupField kvs key).isSome
  | .arr xs => .ok (xs.any fun e => match e with | .str s => s = key | _ => false)
  | .str s => .ok (strContainsB s key)
  | _ => .error .typeError

/-- Python subscript `x[key]` for a string key. -/
def pySubscript (x : Json) (key : String) : Except PyErr Json :=
  match x with
  | .obj kvs =>
    match lookupField kvs key with
    | some v => .ok v
    | none => .error (.keyError key)
  | _ => .error .typeError

/-- Python `x.get(key, default)`: defined on dictionaries only. -/
def pyGet (x : Json) (key : String) (default : Json) : Except PyErr Json :=
  match x with
  | .obj kvs => .ok ((lookupField kvs key).getD default)
  | _ => .error (.attributeError "get")

/-- Total dictionary lookup with default, for stating theorems about payloads
already known to be mappings. -/
def jGetD (x : Json) (key : String) (default : Json) : Json :=
  match x with
  | .obj kvs => (lookupField kvs key).getD default
  | _ => default

/-- Whether a JSON value is a mapping. -/
def isObjB : Json → Bool
  | .obj _ => true
  | _ => false

/-- Python `x.values()`: defined on dictionaries only, in insertion order. -/
def pyValues (x : Json) : Except PyErr (List Json) :=
  match x with
  | .obj kvs => .ok (kvs.map Prod.snd)
  | _ => .error (.attributeError "values")

/-- Python `next(iter(vs))` on a realized value sequence. -/
def nextIterVals : List Json → Except PyErr Json
  | [] => .error .stopIteration
  | v :: _ => .ok v

/-- Python iteration over a JSON value: lists yield elements, strings yield
one-character strings, dictionaries yield their keys, scalars raise. -/
def pyIterList : Json → Except PyErr (List Json)
  | .arr xs => .ok xs
  | .str s => .ok (s.data.map fun c => Json.str (String.mk [c]))
  | .obj kvs => .ok (kvs.map fun kv => Json.str kv.1)
  | _ => .error .typeError

/-- Python slice-then-iterate `x[:n]` as used on a sections value: lists are
truncated, strings yield their first characters, other values raise. -/
def pySliceJson (x : Json) (n : Nat) : Except PyErr (List Json) :=
  match x with
  | .arr xs => .ok (xs.take n)
  | .str s => .ok ((s.data.take n).map fun c => Json.str (String.mk [c]))
  | _ => .error .typeError

/-- Python slice `xs[:limit]` on a realized list with a possibly negative
integer bound. -/
def pySliceTo {α : Type} (xs : List α) (limit : Int) : List α :=
  if 0 ≤ limit then xs.take limit.toNat
  else xs.take (xs.length - (-limit).toNat)

/-- Python `value.replace(old, new)` on a JSON value: strings only. -/
def jReplace (x : Json) (old new : String) : Except PyErr Json :=
  match x with
  | .str s => .ok (.str (pyReplace s old new))
  | _ => .error (.attributeError "replace")

/-- Python list comprehension over realized elements: applies `f` left to
right and propagates the first raised exception. -/
def exceptMapList {α β : Type} (f : α → Except PyErr β) : List α → Except PyErr (List β)
  | [] => .ok []
  | x :: xs => do
    let y ← f x
    let ys ← exceptMapList f xs
    pure (y :: ys)

mutual

/-- Python repr of a decoded JSON value (used by str() on containers). -/
def pyReprJ : Json → String
  | .null => "None"
  | .bool true => "True"
  | .bool false => "False"
  | .num n => toString n
  | .str s => "\x27" ++ s ++ "\x27"
  | .arr xs => "[" ++ String.intercalate ", " (pyReprArr xs) ++ "]"
  | .obj kvs => "\x7b" ++ String.intercalate ", " (pyReprObj kvs) ++ "\x7d"

/-- Helper of `pyReprJ` for list elements. -/
def pyReprArr : List Json → List String
  | [] => []
  | x :: xs => pyReprJ x :: pyReprArr xs

/-- Helper of `pyReprJ` for mapping entries. -/
def pyReprObj : List (String × Json) → List String
  | [] => []
  | kv :: rest => ("\x27" ++ kv.1 ++ "\x27: " ++ pyReprJ kv.2) :: pyReprObj rest

end

/-- Python str() of a JSON value, as interpolated by an f-string. -/
def pyStr : Json → String
  | .str s => s
  | j => pyReprJ j

/-- Constant WIKIPEDIA_API_BASE from server.py. -/
def WIKIPEDIA_API_BASE : String := "https://en.wikipedia.org/api/rest_v1"

/-- Constant WIKIPEDIA_SEARCH_API from server.py. -/
def WIKIPEDIA_SEARCH_API : String := "https://en.wikipedia.org/w/api.php"

/-- Constant USER_AGENT from server.py. -/
def USER_AGENT : String := "wikipedia-mcp/1.0"

/-- Abstraction of make_wikipedia_request: given a URL and optional query
parameters it yields the decoded payload, or `none` (the Absent signal) when
the request failed in any way. -/
abbrev Fetch := String → Option (List (String × Json)) → Option Json

/-- Parameter dictionary built by search_wikipedia (server.py lines 72-78). -/
def search_params (query : String) (limit : Int) : List (String × Json) :=
  [("action", .str "query"),
   ("format", .str "json"),
   ("list", .str "search"),
   ("srsearch", .str query),
   ("srlimit", .num (min limit 20))]

/-- Parameter dictionary built by get_wikipedia_links (server.py lines 176-182). -/
def links_params (title : String) (limit : Int) : List (String × Json) :=
  [("action", .str "query"),
   ("format", .str "json"),
   ("titles", .str title),
   ("prop", .str "links"),
   ("pllimit", .num (min limit 50))]

/-- Parameter dictionary built by get_related_topics (server.py lines 211-217). -/
def related_params (title : String) : List (String × Json) :=
  [("action", .str "query"),
   ("format", .str "json"),
   ("titles", .str title),
   ("prop", .str "categories"),
   ("cllimit", .num 20)]

/-- Literal highlight marker removed from snippets (server.py line 33). -/
def spanOpenMarker : String := "<span class=\x22searchmatch\x22>"

/-- Literal closing marker removed from snippets (server.py line 33). -/
def spanCloseMarker : String := "</span>"

/-- Translation of format_search_result (server.py lines 30-36). -/
def format_search_result (page : Json) : Except PyErr String := do
  let title ← pyGet page "title" (.str "Unknown")
  let snip0 ← pyGet page "snippet" (.str "No description available")
  let snip1 ← jReplace snip0 spanOpenMarker ""
  let snippet ← jReplace snip1 spanCloseMarker ""
  let underscored ← jReplace title " " "_"
  pure ("Title: " ++ pyStr title ++
    "\nDescription: " ++ pyStr snippet ++
    "\nURL: https://en.wikipedia.org/wiki/" ++ pyStr underscored)

/-- Translation of format_article_summary (server.py lines 38-46). -/
def format_article_summary (data : Json) : Except PyErr String := do
  let title ← pyGet data "title" (.str "Unknown")
  let extract ← pyGet data "extract" (.str "No summary available")
  let cu ← pyGet data "content_urls" (.obj [])
  let desktop ← pyGet cu "desktop" (.obj [])
  let page ← pyGet desktop "page" (.str "")
  pure ("Title: " ++ pyStr title ++
    "\nSummary: " ++ pyStr extract ++
    "\nURL: " ++ pyStr page)

/-- Translation of format_article_sections (server.py lines 48-58). -/
def format_article_sections (sections : Json) : Except PyErr String :=
  if truthy sections then do
    let items ← pySliceJson sections 10
    let formatted ← exceptMapList (fun sec => do
      let line ← pyGet sec "line" (.str "Unknown Section")
      pure ("- " ++ pyStr line)) items
    pure (String.intercalate "\n" formatted)
  else
    .ok "No sections found."

/-- Fallback message of search_wikipedia (server.py line 82). -/
def searchFailMsg : String := "Unable to search Wikipedia or no results found."

/-- Translation of search_wikipedia (server.py lines 60-89), with the Gateway
Client passed in as `fetch`. -/
def search_wikipedia (query : String) (limit : Int) (fetch : Fetch) :
    Except PyErr String :=
  match fetch WIKIPEDIA_SEARCH_API (some (search_params query limit)) with
  | none => .ok searchFailMsg
  | some d =>
    if truthy d then do
      let hq ← pyIn "query" d
      if hq then do
        let dq ← pySubscript d "query"
        let hs ← pyIn "search" dq
        if hs then do
          let dq2 ← pySubscript d "query"
          let search_results ← pySubscript dq2 "search"
          if truthy search_results then do
            let hits ← pyIterList search_results
            let results ← exceptMapList format_search_result hits
            pure ("Found " ++ toString results.length ++
              " Wikipedia articles:\n\n" ++ String.intercalate "\n---\n" results)
          else
            pure ("No Wikipedia articles found for query: \x27" ++ query ++ "\x27")
        else
          pure searchFailMsg
      else
        pure searchFailMsg
    else
      .ok searchFailMsg

/-- REST summary endpoint URL built from a title (server.py lines 103, 133). -/
def summary_url (title : String) : String :=
  WIKIPEDIA_API_BASE ++ "/page/summary/" ++ pyReplace title " " "_"

/-- REST sections endpoint URL built from a title (server.py lines 110, 152). -/
def sections_url (title : String) : String :=
  WIKIPEDIA_API_BASE ++ "/page/sections/" ++ pyReplace title " " "_"

/-- Fallback message of get_wikipedia_article (server.py line 107). -/
def articleFailMsg (title : String) : String :=
  "Unable to fetch Wikipedia article \x27" ++ title ++ "\x27. Article may not exist."

/-- Translation of get_wikipedia_article (server.py lines 91-120). -/
def get_wikipedia_article (title : String) (fetch : Fetch) : Except PyErr String :=
  match fetch (summary_url title) none with
  | none => .ok (articleFailMsg title)
  | some summary_data =>
    if truthy summary_data then
      let sections_data := fetch (sections_url title) none
      do
        let article_info ← format_article_summary summary_data
        match sections_data with
        | none => pure article_info
        | some scd =>
          if truthy scd then do
            let secf ← pyGet scd "sections" .null
            if truthy secf then do
              let secv ← pySubscript scd "sections"
              let sections_list ← format_article_sections secv
              pure (article_info ++ "\n\nSections:\n" ++ sections_list)
            else
              pure article_info
          else
            pure article_info
    else
      .ok (articleFailMsg title)

/-- Fallback message of get_wikipedia_summary (server.py line 137). -/
def summaryFailMsg (title : String) : String :=
  "Unable to fetch summary for Wikipedia article \x27" ++ title ++ "\x27."

/-- Translation of get_wikipedia_summary (server.py lines 122-139). -/
def get_wikipedia_summary (title : String) (fetch : Fetch) : Except PyErr String :=
  match fetch (summary_url title) none with
  | none => .ok (summaryFailMsg title)
  | some d =>
    if truthy d then format_article_summary d
    else .ok (summaryFailMsg title)

/-- Fallback message of get_wikipedia_sections (server.py line 156). -/
def sectionsFailMsg (title : String) : String :=
  "Unable to fetch sections for Wikipedia article \x27" ++ title ++ "\x27."

/-- Translation of get_wikipedia_sections (server.py lines 141-161). -/
def get_wikipedia_sections (title : String) (fetch : Fetch) : Except PyErr String :=
  match fetch (sections_url title) none with
  | none => .ok (sectionsFailMsg title)
  | some d =>
    if truthy d then do
      let hs ← pyIn "sections" d
      if hs then do
        let sections ← pySubscript d "sections"
        let formatted_sections ← format_article_sections sections
        pure ("Sections for \x27" ++ title ++ "\x27:\n" ++ formatted_sections)
      else
        pure (sectionsFailMsg title)
    else
      .ok (sectionsFailMsg title)

/-- Fallback message of get_wikipedia_links (server.py line 186). -/
def linksFailMsg (title : String) : String :=
  "Unable to fetch links for Wikipedia article \x27" ++ title ++ "\x27."

/-- Translation of get_wikipedia_links (server.py lines 163-196). -/
def get_wikipedia_links (title : String) (limit : Int) (fetch : Fetch) :
    Except PyErr String :=
  match fetch WIKIPEDIA_SEARCH_API (some (links_params title limit)) with
  | none => .ok (linksFailMsg title)
  | some d =>
    if truthy d then do
      let hq ← pyIn "query" d
      if hq then do
        let dq ← pySubscript d "query"
        let hp ← pyIn "pages" dq
        if hp then do
          let dq2 ← pySubscript d "query"
          let pages ← pySubscript dq2 "pages"
          let vals ← pyValues pages
          let page ← nextIterVals vals
          let hl ← pyIn "links" page
          if hl then do
            let linksJ ← pySubscript page "links"
            let linkItems ← pyIterList linksJ
            let links ← exceptMapList (fun l => pySubscript l "title") linkItems
            pure ("Links in \x27" ++ title ++ "\x27 (showing " ++
              toString links.length ++ " links):\n" ++
              String.intercalate "\n" (links.map fun l => "- " ++ pyStr l))
          else
            pure ("No links found in Wikipedia article \x27" ++ title ++ "\x27.")
        else
          pure (linksFailMsg title)
      else
        pure (linksFailMsg title)
    else
      .ok (linksFailMsg title)

/-- Fallback message of get_related_topics (server.py line 221). -/
def relatedFailMsg (title : String) : String :=
  "Unable to fetch related topics for Wikipedia article \x27" ++ title ++ "\x27."

/-- Translation of get_related_topics (server.py lines 198-232). -/
def get_related_topics (title : String) (limit : Int) (fetch : Fetch) :
    Except PyErr String :=
  match fetch WIKIPEDIA_SEARCH_API (some (related_params title)) with
  | none => .ok (relatedFailMsg title)
  | some d =>
    if truthy d then do
      let hq ← pyIn "query" d
      if hq then do
        let dq ← pySubscript d "query"
        let hp ← pyIn "pages" dq
        if hp then do
          let dq2 ← pySubscript d "query"
          let pages ← pySubscript dq2 "pages"
          let vals ← pyValues pages
          let page ← nextIterVals vals
          let hc ← pyIn "categories" page
          if hc then do
            let catsJ ← pySubscript page "categories"
            let catItems ← pyIterList catsJ
            let categories ← exceptMapList (fun cat => do
              let t ← pySubscript cat "title"
              jReplace t "Category:" "") catItems
            let related_topics := pySliceTo categories limit
            pure ("Topics related to \x27" ++ title ++ "\x27:\n" ++
              String.intercalate "\n" (related_topics.map fun topic => "- " ++ pyStr topic))
          else
            pure ("No categories found for Wikipedia article \x27" ++ title ++ "\x27.")
        else
          pure (relatedFailMsg title)
      else
        pure (relatedFailMsg title)
    else
      .ok (relatedFailMsg title)

/-- Modelled from the spec: the specification describes the category transform
as stripping the literal "Category:" prefix from each returned category title;
this definition follows those words, for comparison with the translated code. -/
def strip_category_marker_spec (t : String) : String :=
  if listStartsWith "Category:".data t.data then String.mk (t.data.drop 9) else t

/-- Payload whose query.pages mapping is empty. -/
def pagesEmptyPayload : Json := .obj [("query", .obj [("pages", .obj [])])]

/-- Payload whose single page has one link entry lacking a title field. -/
def linkNoTitlePayload : Json :=
  .obj [("query", .obj [("pages", .obj [("1", .obj [("links", .arr [.obj []])])])])]

/-- Payload whose single page has one category entry lacking a title field. -/
def catNoTitlePayload : Json :=
  .obj [("query", .obj [("pages", .obj [("1", .obj [("categories", .arr [.obj []])])])])]

/-- List of fifteen section mappings used to witness C7. -/
def fifteenSections : List Json :=
  [.obj [("line", .str "S1")], .obj [("line", .str "S2")], .obj [("line", .str "S3")],
   .obj [("line", .str "S4")], .obj [("line", .str "S5")], .obj [("line", .str "S6")],
   .obj [("line", .str "S7")], .obj [("line", .str "S8")], .obj [("line", .str "S9")],
   .obj [("line", .str "S10")], .obj [("line", .str "S11")], .obj [("line", .str "S12")],
   .obj [("line", .str "S13")], .obj [("line", .str "S14")], .obj [("line", .str "S15")]]

/-- Two mock search hits used to witness C4. -/
def twoHits : List Json :=
  [.obj [("title", .str "Test"), ("snippet", .str "a Test page")],
   .obj [("title", .str "Test two"), ("snippet", .str "another")]]

/-- Search payload carrying the two mock hits. -/
def twoHitPayload : Json := .obj [("query", .obj [("search", .arr twoHits)])]

/-- Category titles used to witness C6. -/
def catsTs : List String := ["Category:Felines", "Category:Pets", "Category:Mammals"]

/-- Categories payload used to witness C6. -/
def catsPayload : Json :=
  .obj [("query", .obj [("pages", .obj [("1", .obj [("categories",
    .arr (catsTs.map fun t => Json.obj [("title", Json.str t)]))])])])]

/-- Sections payload whose fetch would succeed with a nonempty list. -/
def richSectionsPayload : Json := .obj [("sections", .arr [.obj [("line", .str "History")]])]

/-- Summary payload used to witness C3. -/
def catSummaryPayload : Json :=
  .obj [("title", .str "Cat"), ("extract", .str "A cat."),
    ("content_urls", .obj [("desktop", .obj [("page", .str "https://en.wikipedia.org/wiki/Cat")])])]

/-- Reduction of pure into the ok constructor of Except. -/
@[simp] theorem exceptPureOk {ε : Type u} {α : Type v} (a : α) :
    (pure a : Except ε α) = .ok a := rfl

/-- Reduction of a monadic bind on a successful Except value. -/
@[simp] theorem exceptBindOk {ε : Type u} {α β : Type v} (a : α) (f : α → Except ε β) :
    (Except.ok a >>= f) = f a := rfl

/-- Reduction of a monadic bind on a failed Except value. -/
@[simp] theorem exceptBindErr {ε : Type u} {α β : Type v} (e : ε) (f : α → Except ε β) :
    ((Except.error e : Except ε α) >>= f) = .error e := rfl

/-- Associativity of string append, for regrouping rendered output. -/
theorem strAppendAssoc (a b c : String) : a ++ b ++ c = a ++ (b ++ c) := by
  cases a with | mk la =>
  cases b with | mk lb =>
  cases c with | mk lc =>
  show String.mk (la ++ lb ++ lc) = String.mk (la ++ (lb ++ lc))
  rw [List.append_assoc]

/-- Two strings with different first characters are different. -/
theorem strNeOfHead {a b : String} (h : a.data.head? ≠ b.data.head?) : a ≠ b :=
  fun e => h (congrArg (fun s : String => s.data.head?) e)

/-- A mapping in which a lookup succeeds is nonempty, hence truthy. -/
theorem truthy_obj_of_lookup {kvs : List (String × Json)} {k : String} {v : Json}
    (h : lookupField kvs k = some v) : truthy (.obj kvs) = true := by
  cases kvs with
  | nil => simp [lookupField] at h
  | cons x xs => simp [truthy]

/-- C1: whenever every underlying HTTP request fails (the Gateway Client
returns the Absent signal for every URL), each of the six tool operations
returns its designated fallback string, and no exception propagates. -/
theorem c1_failure_fallbacks (query title : String) (limit : Int) (fetch : Fetch)
    (hfail : ∀ u p, fetch u p = none) :
    search_wikipedia query limit fetch = .ok searchFailMsg ∧
    get_wikipedia_article title fetch = .ok (articleFailMsg title) ∧
    get_wikipedia_summary title fetch = .ok (summaryFailMsg title) ∧
    get_wikipedia_sections title fetch = .ok (sectionsFailMsg title) ∧
    get_wikipedia_links title limit fetch = .ok (linksFailMsg title) ∧
    get_related_topics title limit fetch = .ok (relatedFailMsg title) := by
  refine ⟨?_, ?_, ?_, ?_, ?_, ?_⟩ <;>
    simp [search_wikipedia, get_wikipedia_article, get_wikipedia_summary,
      get_wikipedia_sections, get_wikipedia_links, get_related_topics, hfail]

/-- Witness for C1 at a concrete always-failing gateway. -/
theorem c1_failure_fallbacks_witness :
    search_wikipedia "Test" 10 (fun _ _ => none) = .ok searchFailMsg ∧
    get_wikipedia_article "Cat" (fun _ _ => none) = .ok (articleFailMsg "Cat") ∧
    get_wikipedia_summary "Cat" (fun _ _ => none) = .ok (summaryFailMsg "Cat") ∧
    get_wikipedia_sections "Cat" (fun _ _ => none) = .ok (sectionsFailMsg "Cat") ∧
    get_wikipedia_links "Cat" 10 (fun _ _ => none) = .ok (linksFailMsg "Cat") ∧
    get_related_topics "Cat" 10 (fun _ _ => none) = .ok (relatedFailMsg "Cat") :=
  c1_failure_fallbacks "Test" "Cat" 10 (fun _ _ => none) (fun _ _ => rfl)

/-- C2 counterexample: get_wikipedia_links and get_related_topics do not
return a string on an empty query.pages mapping (next on an empty iterator
raises StopIteration) or on an entry lacking a title field (KeyError). -/
theorem c2_counterexample :
    get_wikipedia_links "Python" 20 (fun _ _ => some pagesEmptyPayload) =
      .error .stopIteration ∧
    get_related_topics "Python" 10 (fun _ _ => some pagesEmptyPayload) =
      .error .stopIteration ∧
    get_wikipedia_links "Python" 20 (fun _ _ => some linkNoTitlePayload) =
      .error (.keyError "title") ∧
    get_related_topics "Python" 10 (fun _ _ => some catNoTitlePayload) =
      .error (.keyError "title") :=
  ⟨rfl, rfl, rfl, rfl⟩

/-- C2 amended: the operations return their fallback strings on absent
payloads, but get_wikipedia_links and get_related_topics raise StopIteration
when the query.pages mapping of the payload is empty and KeyError when a
link or category entry lacks a title field, so not every payload yields a
string. -/
theorem c2_amended (title : String) (limit : Int) :
    get_wikipedia_links title limit (fun _ _ => some pagesEmptyPayload) =
      .error .stopIteration ∧
    get_related_topics title limit (fun _ _ => some pagesEmptyPayload) =
      .error .stopIteration ∧
    get_wikipedia_links title limit (fun _ _ => some linkNoTitlePayload) =
      .error (.keyError "title") ∧
    get_related_topics title limit (fun _ _ => some catNoTitlePayload) =
      .error (.keyError "title") ∧
    get_wikipedia_links title limit (fun _ _ => none) = .ok (linksFailMsg title) ∧
    get_related_topics title limit (fun _ _ => none) = .ok (relatedFailMsg title) :=
  ⟨rfl, rfl, rfl, rfl, rfl, rfl⟩

/-- C5: the search request limit is min(limit, 20) and the links request
limit is min(limit, 50); values above the cap are capped, values at or below
the cap, including zero and negatives, are forwarded unchanged. -/
theorem c5_limit_caps (query title : String) (limit : Int) :
    (20 < limit → lookupField (search_params query limit) "srlimit" = some (.num 20)) ∧
    (limit ≤ 20 → lookupField (search_params query limit) "srlimit" = some (.num limit)) ∧
    (50 < limit → lookupField (links_params title limit) "pllimit" = some (.num 50)) ∧
    (limit ≤ 50 → lookupField (links_params title limit) "pllimit" = some (.num limit)) := by
  refine ⟨fun h => ?_, fun h => ?_, fun h => ?_, fun h => ?_⟩ <;>
    simp [search_params, links_params, lookupField] <;> omega

/-- Witness for C5: limit 100 is sent as 20 for search, limit 0 is sent
unchanged for links. -/
theorem c5_limit_caps_witness :
    lookupField (search_params "Test" 100) "srlimit" = some (.num 20) ∧
    lookupField (links_params "Python" 0) "pllimit" = some (.num 0) :=
  ⟨(c5_limit_caps "Test" "Python" 100).1 (by decide),
   (c5_limit_caps "Test" "Python" 0).2.2.2 (by decide)⟩

/-- C9 counterexample: format_article_summary is not total on every mapping
payload; a mapping whose content_urls field is a number raises
AttributeError at the chained get call. -/
theorem c9_counterexample :
    format_article_summary (.obj [("content_urls", .num 5)]) =
      .error (.attributeError "get") :=
  rfl

/-- C9 amended: format_article_summary succeeds on every mapping payload
whose content_urls level (default empty mapping) and desktop level (default
empty mapping) are themselves mappings, rendering the title (default
Unknown), the extract (default "No summary available") and the URL from
content_urls.desktop.page (default empty string); payloads where a present
nesting level is not a mapping raise AttributeError instead. -/
theorem c9_amended (kvs cuF deskF : List (String × Json))
    (hcu : (lookupField kvs "content_urls").getD (.obj []) = .obj cuF)
    (hdesk : (lookupField cuF "desktop").getD (.obj []) = .obj deskF) :
    format_article_summary (.obj kvs) =
      .ok ("Title: " ++ pyStr ((lookupField kvs "title").getD (.str "Unknown")) ++
        "\nSummary: " ++ pyStr ((lookupField kvs "extract").getD (.str "No summary available")) ++
        "\nURL: " ++ pyStr ((lookupField deskF "page").getD (.str ""))) := by
  simp [format_article_summary, pyGet, hcu, hdesk]

/-- Witness for C9 on a fully populated payload and on an empty mapping. -/
theorem c9_amended_witness :
    format_article_summary (.obj [("title", .str "Cat"), ("extract", .str "A cat."),
      ("content_urls", .obj [("desktop",
        .obj [("page", .str "https://en.wikipedia.org/wiki/Cat")])])]) =
      .ok "Title: Cat\nSummary: A cat.\nURL: https://en.wikipedia.org/wiki/Cat" ∧
    format_article_summary (.obj [("title", .str "Cat")]) =
      .ok "Title: Cat\nSummary: No summary available\nURL: " := by
  constructor
  · exact c9_amended
      [("title", .str "Cat"), ("extract", .str "A cat."),
        ("content_urls", .obj [("desktop",
          .obj [("page", .str "https://en.wikipedia.org/wiki/Cat")])])]
      [("desktop", .obj [("page", .str "https://en.wikipedia.org/wiki/Cat")])]
      [("page", .str "https://en.wikipedia.org/wiki/Cat")] rfl rfl
  · exact c9_amended [("title", .str "Cat")] [] [] rfl rfl

/-- C8: format_search_result removes the highlight markers from the snippet,
defaults a missing snippet and a missing title, and builds the URL from the
title with spaces replaced by underscores; on the Cat_food example the
description is "Cat food" and the URL ends in /wiki/Cat_food. -/
theorem c8_search_result_format (kvs : List (String × Json)) (t sn : String)
    (ht : lookupField kvs "title" = some (.str t) ∨
      (lookupField kvs "title" = none ∧ t = "Unknown"))
    (hs : lookupField kvs "snippet" = some (.str sn) ∨
      (lookupField kvs "snippet" = none ∧ sn = "No description available")) :
    format_search_result (.obj kvs) =
      .ok ("Title: " ++ t ++
        "\nDescription: " ++ pyReplace (pyReplace sn spanOpenMarker "") spanCloseMarker "" ++
        "\nURL: https://en.wikipedia.org/wiki/" ++ pyReplace t " " "_") ∧
    format_search_result (.obj [("title", .str "Cat_food"),
        ("snippet", .str "<span class=\x22searchmatch\x22>Cat</span> food")]) =
      .ok "Title: Cat_food\nDescription: Cat food\nURL: https://en.wikipedia.org/wiki/Cat_food" := by
  constructor
  · rcases ht with ht | ⟨ht, rfl⟩ <;> rcases hs with hs | ⟨hs, rfl⟩ <;>
      simp [format_search_result, pyGet, jReplace, pyStr, ht, hs]
  · rfl

/-- Witness for C8: a present title with a space and a missing snippet. -/
theorem c8_search_result_format_witness :
    format_search_result (.obj [("title", .str "Cat food")]) =
      .ok ("Title: Cat food\nDescription: No description available\nURL: https://en.wikipedia.org/wiki/Cat_food") := by
  have h := (c8_search_result_format [("title", .str "Cat food")] "Cat food"
    "No description available" (Or.inl rfl) (Or.inr ⟨rfl, rfl⟩)).1
  exact h

/-- Rendering of a list of section mappings succeeds and produces one
dash-prefixed line per entry. -/
theorem exceptMapList_line (items : List Json) (h : ∀ e ∈ items, isObjB e = true) :
    exceptMapList (fun sec => do
        let line ← pyGet sec "line" (.str "Unknown Section")
        pure ("- " ++ pyStr line)) items
      = .ok (items.map fun e => "- " ++ pyStr (jGetD e "line" (.str "Unknown Section"))) := by
  induction items with
  | nil => rfl
  | cons x xs ih =>
    have hx := h x (by simp)
    obtain ⟨l, rfl⟩ : ∃ l, x = Json.obj l := by
      revert hx; cases x <;> simp [isObjB]
    have ih2 := ih fun e he => h e (by simp [he])
    simp only [exceptMapList, List.map_cons]
    rw [ih2]
    simp [pyGet, jGetD]

/-- C7: format_article_sections returns exactly "No sections found." on an
empty or absent list, and otherwise renders the first at most 10 entries in
order, one "- "-prefixed line per entry, with missing heading text defaulted
to "Unknown Section". -/
theorem c7_sections_format (entries : List Json)
    (hne : entries ≠ [])
    (hobj : ∀ e ∈ entries.take 10, isObjB e = true) :
    format_article_sections (.arr []) = .ok "No sections found." ∧
    format_article_sections .null = .ok "No sections found." ∧
    format_article_sections (.arr entries) =
      .ok (String.intercalate "\n"
        ((entries.take 10).map fun e => "- " ++ pyStr (jGetD e "line" (.str "Unknown Section")))) ∧
    ((entries.take 10).map fun e => "- " ++ pyStr (jGetD e "line" (.str "Unknown Section"))).length
      = min 10 entries.length ∧
    ∀ l ∈ (entries.take 10).map fun e => "- " ++ pyStr (jGetD e "line" (.str "Unknown Section")),
      ∃ r, l = "- " ++ r := by
  refine ⟨rfl, rfl, ?_, ?_, ?_⟩
  · have htr : truthy (.arr entries) = true := by
      cases entries with
      | nil => exact absurd rfl hne
      | cons a as => simp [truthy]
    simp only [format_article_sections, htr, if_true, pySliceJson, exceptBindOk]
    rw [exceptMapList_line _ hobj]
    simp
  · simp
  · intro l hl
    simp only [List.mem_map] at hl
    obtain ⟨e, he, rfl⟩ := hl
    exact ⟨_, rfl⟩

/-- Witness for C7: fifteen sections render as exactly the first ten lines. -/
theorem c7_sections_format_witness :
    format_article_sections (.arr fifteenSections) =
      .ok "- S1\n- S2\n- S3\n- S4\n- S5\n- S6\n- S7\n- S8\n- S9\n- S10" := by
  have h := (c7_sections_format fifteenSections (List.cons_ne_nil _ _) (by decide)).2.2.1
  exact h

/-- C10: get_wikipedia_sections returns its unavailability fallback exactly
when the payload is absent or lacks the sections key, and a present but empty
sections list yields the header line followed by "No sections found." -/
theorem c10_sections_gate (title : String) (fetch : Fetch) (kvs : List (String × Json)) :
    (fetch (sections_url title) none = none →
       get_wikipedia_sections title fetch = .ok (sectionsFailMsg title)) ∧
    (fetch (sections_url title) none = some (.obj kvs) →
       (get_wikipedia_sections title fetch = .ok (sectionsFailMsg title) ↔
         lookupField kvs "sections" = none)) ∧
    (fetch (sections_url title) none = some (.obj kvs) →
       lookupField kvs "sections" = some (.arr []) →
       get_wikipedia_sections title fetch =
         .ok ("Sections for \x27" ++ title ++ "\x27:\nNo sections found.")) := by
  have hne : ∀ fs : String,
      ("Sections for \x27" ++ title ++ "\x27:\n" ++ fs) ≠ sectionsFailMsg title := by
    intro fs
    apply strNeOfHead
    intro hcontra
    rw [show ("Sections for \x27" ++ title ++ "\x27:\n" ++ fs).data.head? = some 'S' from rfl]
      at hcontra
    rw [show (sectionsFailMsg title).data.head? = some 'U' from rfl] at hcontra
    exact absurd hcontra (by decide)
  refine ⟨fun h => ?_, fun h => ?_, fun h hl => ?_⟩
  · simp [get_wikipedia_sections, h]
  · cases kvs with
    | nil => simp [get_wikipedia_sections, h, truthy, lookupField]
    | cons x rest =>
      cases hl : lookupField (x :: rest) "sections" with
      | none => simp [get_wikipedia_sections, h, truthy, pyIn, hl]
      | some v =>
        cases hfv : format_article_sections v with
        | error e =>
          simp [get_wikipedia_sections, h, truthy, pyIn, pySubscript, hl, hfv]
        | ok fs =>
          simp [get_wikipedia_sections, h, truthy, pyIn, pySubscript, hl, hfv, hne fs]
  · have ht2 : kvs.isEmpty = false := by
      simpa [truthy] using truthy_obj_of_lookup hl
    simp only [get_wikipedia_sections, h, ht2, Bool.not_false, if_true, pyIn, hl,
      Option.isSome_some, exceptBindOk, pySubscript, format_article_sections, truthy,
      List.isEmpty_nil, Bool.not_true, if_false, exceptPureOk, Bool.false_eq_true]
    simp only [strAppendAssoc]
    rfl

/-- Witness for C10: a payload whose sections key maps to the empty list. -/
theorem c10_sections_gate_witness :
    get_wikipedia_sections "Cat" (fun _ _ => some (.obj [("sections", .arr [])])) =
      .ok "Sections for \x27Cat\x27:\nNo sections found." :=
  (c10_sections_gate "Cat" (fun _ _ => some (.obj [("sections", .arr [])]))
    [("sections", .arr [])]).2.2 rfl rfl

/-- C4: with a present payload carrying query.search, an empty hit list gives
the per-query no-results message, which differs from the request-failure
message, and a nonempty hit list gives a result starting with
"Found N Wikipedia articles:" followed by the formatted entries joined by the
separator. -/
theorem c4_search_results (query : String) (limit : Int) (fetch : Fetch)
    (dkvs qkvs : List (String × Json)) (hits : List Json)
    (hd : fetch WIKIPEDIA_SEARCH_API (some (search_params query limit)) = some (.obj dkvs))
    (hq : lookupField dkvs "query" = some (.obj qkvs))
    (hs : lookupField qkvs "search" = some (.arr hits)) :
    (hits = [] →
       search_wikipedia query limit fetch =
         .ok ("No Wikipedia articles found for query: \x27" ++ query ++ "\x27") ∧
       ("No Wikipedia articles found for query: \x27" ++ query ++ "\x27") ≠ searchFailMsg) ∧
    (∀ results, exceptMapList format_search_result hits = .ok results → hits ≠ [] →
       search_wikipedia query limit fetch =
         .ok ("Found " ++ toString results.length ++ " Wikipedia articles:\n\n" ++
           String.intercalate "\n---\n" results)) := by
  have htd : truthy (.obj dkvs) = true := truthy_obj_of_lookup hq
  constructor
  · rintro rfl
    constructor
    · have htd2 : dkvs.isEmpty = false := by simpa [truthy] using htd
      simp only [search_wikipedia, hd, htd2, Bool.not_false, if_true, pyIn, hq,
        pySubscript, hs, Option.isSome_some, exceptBindOk, truthy, List.isEmpty_nil,
        Bool.not_true, if_false, exceptPureOk, Bool.false_eq_true]
    · apply strNeOfHead
      intro hcontra
      rw [show ("No Wikipedia articles found for query: \x27" ++ query ++ "\x27").data.head?
          = some 'N' from rfl] at hcontra
      exact absurd hcontra (by decide)
  · intro results hres hne
    have hth : truthy (.arr hits) = true := by
      cases hits with
      | nil => exact absurd rfl hne
      | cons a as => simp [truthy]
    simp only [search_wikipedia, hd, htd, if_true, pyIn, hq, pySubscript, hs,
      Option.isSome_some, exceptBindOk, hth, pyIterList]
    rw [hres]
    simp

/-- Witness for C4: two mock hits produce the Found-2 result joined by the
separator. -/
theorem c4_search_results_witness :
    search_wikipedia "Test" 10 (fun _ _ => some twoHitPayload) =
      .ok ("Found 2 Wikipedia articles:\n\n" ++
        "Title: Test\nDescription: a Test page\nURL: https://en.wikipedia.org/wiki/Test" ++
        "\n---\n" ++
        "Title: Test two\nDescription: another\nURL: https://en.wikipedia.org/wiki/Test_two") := by
  have h := (c4_search_results "Test" 10 (fun _ _ => some twoHitPayload)
      [("query", .obj [("search", .arr twoHits)])] [("search", .arr twoHits)] twoHits
      rfl rfl rfl).2
      ["Title: Test\nDescription: a Test page\nURL: https://en.wikipedia.org/wiki/Test",
       "Title: Test two\nDescription: another\nURL: https://en.wikipedia.org/wiki/Test_two"]
      rfl (by simp [twoHits])
  exact h

/-- Rendering of a canonical category list: each title is extracted and every
occurrence of the substring "Category:" is removed by replace. -/
theorem exceptMapList_cat (ts : List String) :
    exceptMapList (fun cat => do
        let t ← pySubscript cat "title"
        jReplace t "Category:" "") (ts.map fun t => Json.obj [("title", Json.str t)])
      = .ok (ts.map fun t => Json.str (pyReplace t "Category:" "")) := by
  induction ts with
  | nil => rfl
  | cons x xs ih =>
    simp only [List.map_cons, exceptMapList]
    rw [ih]
    simp [pySubscript, lookupField, jReplace]

/-- Python slicing commutes with mapping over a realized list. -/
theorem pySliceTo_map {α β : Type} (f : α → β) (l : List α) (n : Int) :
    pySliceTo (l.map f) n = (pySliceTo l n).map f := by
  unfold pySliceTo
  split <;> simp [List.map_take]

/-- C6 counterexample: get_related_topics removes every occurrence of the
substring "Category:" rather than stripping a prefix; a category title with
an interior marker is rendered as "- A B" where prefix stripping would leave
it unchanged. -/
theorem c6_counterexample :
    get_related_topics "X" 10 (fun _ _ => some (.obj [("query", .obj [("pages",
        .obj [("1", .obj [("categories",
          .arr [.obj [("title", .str "A Category:B")]])])])])])) =
      .ok "Topics related to \x27X\x27:\n- A B" ∧
    strip_category_marker_spec "A Category:B" = "A Category:B" ∧
    ("- A B" : String) ≠ "- A Category:B" :=
  ⟨rfl, rfl, by decide⟩

/-- C6 amended: get_related_topics requests a fixed 20 categories regardless
of the caller limit, removes every occurrence of the substring "Category:"
from each returned category title (which agrees with prefix stripping when
the marker occurs only at the front, as on "Category:Felines"), truncates
the resulting list client-side with the slice [:limit], and renders each
remaining topic as a "- " line. -/
theorem c6_amended (title : String) (limit : Int) (fetch : Fetch)
    (dkvs qkvs pkvs prest : List (String × Json)) (pid : String) (ts : List String)
    (hd : fetch WIKIPEDIA_SEARCH_API (some (related_params title)) = some (.obj dkvs))
    (hq : lookupField dkvs "query" = some (.obj qkvs))
    (hp : lookupField qkvs "pages" = some (.obj ((pid, .obj pkvs) :: prest)))
    (hc : lookupField pkvs "categories" =
      some (.arr (ts.map fun t => Json.obj [("title", Json.str t)]))) :
    lookupField (related_params title) "cllimit" = some (.num 20) ∧
    pyReplace "Category:Felines" "Category:" "" = "Felines" ∧
    (0 ≤ limit → pySliceTo ts limit = ts.take limit.toNat) ∧
    get_related_topics title limit fetch =
      .ok ("Topics related to \x27" ++ title ++ "\x27:\n" ++
        String.intercalate "\n"
          ((pySliceTo (ts.map fun t => pyReplace t "Category:" "") limit).map
            fun topic => "- " ++ topic)) := by
  refine ⟨rfl, rfl, fun h => by simp [pySliceTo, h], ?_⟩
  have htd2 : dkvs.isEmpty = false := by
    simpa [truthy] using truthy_obj_of_lookup hq
  have e1 : pySubscript (Json.obj dkvs) "query" = .ok (.obj qkvs) := by
    simp [pySubscript, hq]
  have e2 : pySubscript (Json.obj qkvs) "pages" =
      .ok (.obj ((pid, .obj pkvs) :: prest)) := by
    simp [pySubscript, hp]
  have e3 : pySubscript (Json.obj pkvs) "categories" =
      .ok (.arr (ts.map fun t => Json.obj [("title", Json.str t)])) := by
    simp [pySubscript, hc]
  simp only [get_related_topics, hd, truthy, htd2, Bool.not_false, if_true, pyIn, hq,
    hp, hc, Option.isSome_some, exceptBindOk, e1, e2, e3, pyValues, List.map_cons,
    nextIterVals, pyIterList, exceptPureOk]
  rw [exceptMapList_cat]
  simp only [exceptBindOk, exceptPureOk]
  rw [show (ts.map fun t => Json.str (pyReplace t "Category:" ""))
      = (ts.map fun t => pyReplace t "Category:" "").map Json.str by
    rw [List.map_map]; rfl]
  rw [pySliceTo_map]
  simp [List.map_map, Function.comp_def, pyStr]

/-- Witness for C6: three categories with limit 2 render the first two
stripped titles as dash lines, and the request always carries cllimit 20. -/
theorem c6_amended_witness :
    lookupField (related_params "Cat") "cllimit" = some (.num 20) ∧
    get_related_topics "Cat" 2 (fun _ _ => some catsPayload) =
      .ok "Topics related to \x27Cat\x27:\n- Felines\n- Pets" := by
  have h := c6_amended "Cat" 2 (fun _ _ => some catsPayload)
    [("query", .obj [("pages", .obj [("1", .obj [("categories",
      .arr (catsTs.map fun t => Json.obj [("title", Json.str t)]))])])])]
    [("pages", .obj [("1", .obj [("categories",
      .arr (catsTs.map fun t => Json.obj [("title", Json.str t)]))])])]
    [("categories", .arr (catsTs.map fun t => Json.obj [("title", Json.str t)]))]
    [] "1" catsTs rfl rfl rfl rfl
  exact ⟨h.1, h.2.2.2⟩

/-- C3 counterexample: a present but empty summary mapping is treated as
absent; the operation returns the not-found fallback, with no Sections
heading, even though the sections fetch succeeds with a truthy nonempty
sections field. -/
theorem c3_counterexample :
    get_wikipedia_article "Cat"
      (fun u _ => if u = summary_url "Cat" then some (.obj []) else some richSectionsPayload)
      = .ok (articleFailMsg "Cat") ∧
    truthy richSectionsPayload = true ∧
    jGetD richSectionsPayload "sections" .null = .arr [.obj [("line", .str "History")]] ∧
    strContainsB (articleFailMsg "Cat") "Sections:" = false :=
  ⟨rfl, rfl, rfl, by decide⟩

/-- C3 amended: truthiness of the summary payload, not mere presence, is the
sole gate of get_wikipedia_article; an absent or falsy (empty mapping)
summary yields the not-found fallback regardless of the sections fetch,
while a truthy summary whose formatting succeeds yields the formatted
summary with the formatted sections appended under a Sections heading
exactly when the sections payload is truthy and its sections field is
truthy. -/
theorem c3_amended (title : String) (fetch : Fetch) :
    ((∀ j, fetch (summary_url title) none = some j → truthy j = false) →
       get_wikipedia_article title fetch = .ok (articleFailMsg title)) ∧
    (∀ sd base, fetch (summary_url title) none = some sd → truthy sd = true →
       format_article_summary sd = .ok base →
       ((fetch (sections_url title) none = none →
           get_wikipedia_article title fetch = .ok base) ∧
        (∀ scd, fetch (sections_url title) none = some scd → truthy scd = false →
           get_wikipedia_article title fetch = .ok base) ∧
        (∀ scd secf, fetch (sections_url title) none = some scd → truthy scd = true →
           pyGet scd "sections" .null = .ok secf → truthy secf = false →
           get_wikipedia_article title fetch = .ok base) ∧
        (∀ scd secf secv sl, fetch (sections_url title) none = some scd →
           truthy scd = true →
           pyGet scd "sections" .null = .ok secf → truthy secf = true →
           pySubscript scd "sections" = .ok secv →
           format_article_sections secv = .ok sl →
           get_wikipedia_article title fetch = .ok (base ++ "\n\nSections:\n" ++ sl)))) := by
  constructor
  · intro h
    cases hf : fetch (summary_url title) none with
    | none => simp [get_wikipedia_article, hf]
    | some j => simp [get_wikipedia_article, hf, h j hf]
  · intro sd base hf htr hfmt
    refine ⟨fun hs => ?_, fun scd hs hts => ?_, fun scd secf hs hts hg htf => ?_,
      fun scd secf secv sl hs hts hg htf hsub hfas => ?_⟩
    · simp [get_wikipedia_article, hf, htr, hfmt, hs]
    · simp [get_wikipedia_article, hf, htr, hfmt, hs, hts]
    · simp [get_wikipedia_article, hf, htr, hfmt, hs, hts, hg, htf]
    · simp [get_wikipedia_article, hf, htr, hfmt, hs, hts, hg, htf, hsub, hfas]

/-- Witness for C3: a truthy summary with a truthy sections payload appends
the Sections heading, and the same summary with a failing sections fetch
yields the bare summary. -/
theorem c3_amended_witness :
    get_wikipedia_article "Cat"
        (fun u _ => if u = summary_url "Cat" then some catSummaryPayload
          else some richSectionsPayload) =
      .ok "Title: Cat\nSummary: A cat.\nURL: https://en.wikipedia.org/wiki/Cat\n\nSections:\n- History" ∧
    get_wikipedia_article "Cat"
        (fun u _ => if u = summary_url "Cat" then some catSummaryPayload else none) =
      .ok "Title: Cat\nSummary: A cat.\nURL: https://en.wikipedia.org/wiki/Cat" := by
  constructor
  · have h := ((c3_amended "Cat"
      (fun u _ => if u = summary_url "Cat" then some catSummaryPayload
        else some richSectionsPayload)).2 catSummaryPayload
      "Title: Cat\nSummary: A cat.\nURL: https://en.wikipedia.org/wiki/Cat"
      rfl rfl rfl).2.2.2 richSectionsPayload (.arr [.obj [("line", .str "History")]])
      (.arr [.obj [("line", .str "History")]]) "- History" rfl rfl rfl rfl rfl rfl
    exact h
  · have h := ((c3_amended "Cat"
      (fun u _ => if u = summary_url "Cat" then some catSummaryPayload else none)).2
      catSummaryPayload
      "Title: Cat\nSummary: A cat.\nURL: https://en.wikipedia.org/wiki/Cat"
      rfl rfl rfl).1 rfl
    exact h
